import Mathlib

/-!
Verification development for the Reno renovation-planning client.

This file gives a shallow embedding of the parts of the repository that the
specification talks about:

* `src/services/geminiService.ts` — `analyzeRenovation`,
  `generateRenovationImage`, `generateBlueprintImage`, and the declared
  `responseSchema`;
* `src/types.ts` — the plan data model and the `App` component's state
  transitions (`handleAnalysis`, `handleReset`);
* the dashboard component — `checkApiKey`, `handleGenerateImage`,
  `handleGenerateBlueprint`.

JavaScript service values are modelled as a `Json` inductive; `JSON.parse` is
modelled by an executable fuel-based parser over the response text.  JSON
numbers are modelled as exact rationals (the concrete values in the claims are
integers, where the JavaScript double representation is exact).  Network calls
are modelled by passing the service's outcome as an explicit argument, so each
client function is a pure function of the request it builds and the reply it
receives.
-/

namespace Reno

/-! ## JSON values (the runtime shape of `JSON.parse` output) -/

inductive Json where
  | null : Json
  | bool : Bool → Json
  | num : ℚ → Json
  | str : String → Json
  | arr : List Json → Json
  | obj : List (String × Json) → Json

/-- JavaScript property lookup on an object literal: later duplicate keys win,
as in `JSON.parse`. -/
def jlookup (fields : List (String × Json)) (k : String) : Option Json :=
  fields.foldl (fun acc kv => if kv.1 = k then some kv.2 else acc) none

/-! ## `JSON.parse`, modelled as an executable parser -/

def isWs (c : Char) : Bool :=
  c = ' ' || c = '\t' || c = '\n' || c = '\r'

def skipWs : List Char → List Char
  | [] => []
  | c :: cs => if isWs c then skipWs cs else c :: cs

def hexVal (c : Char) : Option Nat :=
  if '0' ≤ c ∧ c ≤ '9' then some (c.toNat - 48)
  else if 'a' ≤ c ∧ c ≤ 'f' then some (c.toNat - 87)
  else if 'A' ≤ c ∧ c ≤ 'F' then some (c.toNat - 55)
  else none

/-- Body of a JSON string literal, after the opening quote. -/
def parseStrAux (acc : List Char) : List Char → Option (String × List Char)
  | [] => none
  | '"' :: rest => some (String.mk acc.reverse, rest)
  | '\\' :: rest =>
    match rest with
    | [] => none
    | e :: rest1 =>
      match e with
      | '"' => parseStrAux ('"' :: acc) rest1
      | '\\' => parseStrAux ('\\' :: acc) rest1
      | '/' => parseStrAux ('/' :: acc) rest1
      | 'b' => parseStrAux (Char.ofNat 8 :: acc) rest1
      | 'f' => parseStrAux (Char.ofNat 12 :: acc) rest1
      | 'n' => parseStrAux ('\n' :: acc) rest1
      | 'r' => parseStrAux ('\r' :: acc) rest1
      | 't' => parseStrAux ('\t' :: acc) rest1
      | 'u' =>
        match rest1 with
        | h1 :: h2 :: h3 :: h4 :: rest2 =>
          match hexVal h1, hexVal h2, hexVal h3, hexVal h4 with
          | some a, some b, some c, some d =>
            parseStrAux (Char.ofNat (a * 4096 + b * 256 + c * 16 + d) :: acc) rest2
          | _, _, _, _ => none
        | _ => none
      | _ => none
  | c :: rest =>
    if c.toNat < 32 then none else parseStrAux (c :: acc) rest

def digitVal (c : Char) : Nat := c.toNat - 48

def takeDigits : List Char → List Nat × List Char
  | [] => ([], [])
  | c :: cs =>
    if c.isDigit then
      let p := takeDigits cs
      (digitVal c :: p.1, p.2)
    else ([], c :: cs)

def digitsToNat (ds : List Nat) : Nat :=
  ds.foldl (fun a d => a * 10 + d) 0

/-- Exponent part of a JSON number, after the `e`/`E`. -/
def parseExpDigits (cs : List Char) : Option (Int × List Char) :=
  let p : Int × List Char :=
    match cs with
    | '+' :: rest => (1, rest)
    | '-' :: rest => (-1, rest)
    | _ => (1, cs)
  match takeDigits p.2 with
  | ([], _) => none
  | (ds, rest) => some (p.1 * (digitsToNat ds : Int), rest)

/-- Assemble the exact rational value of a JSON number literal:
`mantissa * 10 ^ (e - number of fraction digits)`.  The nonnegative-exponent
case is built as an integer rational directly so that concrete parses
evaluate by reduction. -/
def mkNum (neg : Bool) (intDs fracDs : List Nat) (e : Int) : Json :=
  let m : Int := (digitsToNat (intDs ++ fracDs) : Int)
  let m : Int := if neg then -m else m
  let k : Int := e - (fracDs.length : Int)
  if 0 ≤ k then
    .num ⟨m * ((10 ^ k.toNat : Nat) : Int), 1, one_ne_zero, Nat.coprime_one_right _⟩
  else
    .num (mkRat m (10 ^ (-k).toNat))

def parseNumTail (neg : Bool) (intDs fracDs : List Nat) (cs : List Char) :
    Option (Json × List Char) :=
  match cs with
  | 'e' :: rest => (parseExpDigits rest).map fun p => (mkNum neg intDs fracDs p.1, p.2)
  | 'E' :: rest => (parseExpDigits rest).map fun p => (mkNum neg intDs fracDs p.1, p.2)
  | _ => some (mkNum neg intDs fracDs 0, cs)

def parseNumber (cs : List Char) : Option (Json × List Char) :=
  let p : Bool × List Char :=
    match cs with
    | '-' :: rest => (true, rest)
    | _ => (false, cs)
  match takeDigits p.2 with
  | ([], _) => none
  | (intDs, cs1) =>
    -- JSON forbids leading zeros ("01" is rejected by JSON.parse)
    if intDs.length > 1 && intDs.headD 1 == 0 then none
    else
      match cs1 with
      | '.' :: rest =>
        match takeDigits rest with
        | ([], _) => none
        | (fracDs, cs2) => parseNumTail p.1 intDs fracDs cs2
      | _ => parseNumTail p.1 intDs [] cs1

mutual

def parseValue (fuel : Nat) (cs : List Char) : Option (Json × List Char) :=
  match fuel with
  | 0 => none
  | fuel + 1 =>
    match skipWs cs with
    | 'n' :: 'u' :: 'l' :: 'l' :: rest => some (.null, rest)
    | 't' :: 'r' :: 'u' :: 'e' :: rest => some (.bool true, rest)
    | 'f' :: 'a' :: 'l' :: 's' :: 'e' :: rest => some (.bool false, rest)
    | '"' :: rest => (parseStrAux [] rest).map fun p => (.str p.1, p.2)
    | '[' :: rest =>
      match skipWs rest with
      | ']' :: rest1 => some (.arr [], rest1)
      | rest1 => parseElems fuel rest1 []
    | '\x7b' :: rest =>
      match skipWs rest with
      | '\x7d' :: rest1 => some (.obj [], rest1)
      | rest1 => parseMembers fuel rest1 []
    | c :: rest => if c = '-' || c.isDigit then parseNumber (c :: rest) else none
    | [] => none

def parseElems (fuel : Nat) (cs : List Char) (acc : List Json) :
    Option (Json × List Char) :=
  match fuel with
  | 0 => none
  | fuel + 1 =>
    match parseValue fuel cs with
    | none => none
    | some (v, rest) =>
      match skipWs rest with
      | ',' :: rest1 => parseElems fuel rest1 (v :: acc)
      | ']' :: rest1 => some (.arr (v :: acc).reverse, rest1)
      | _ => none

def parseMembers (fuel : Nat) (cs : List Char) (acc : List (String × Json)) :
    Option (Json × List Char) :=
  match fuel with
  | 0 => none
  | fuel + 1 =>
    match skipWs cs with
    | '"' :: rest =>
      match parseStrAux [] rest with
      | none => none
      | some (k, rest1) =>
        match skipWs rest1 with
        | ':' :: rest2 =>
          match parseValue fuel rest2 with
          | none => none
          | some (v, rest3) =>
            match skipWs rest3 with
            | ',' :: rest4 => parseMembers fuel rest4 ((k, v) :: acc)
            | '\x7d' :: rest4 => some (.obj ((k, v) :: acc).reverse, rest4)
            | _ => none
        | _ => none
    | _ => none

end

/-- Model of `JSON.parse(text)`: either the parsed value or a syntax error.
The fuel `2 * length + 2` dominates the recursion depth, since every
recursive call is preceded by consuming at least one input character. -/
def parseJson (s : String) : Except String Json :=
  match parseValue (2 * s.length + 2) s.data with
  | some (j, rest) =>
    if (skipWs rest).isEmpty then .ok j
    else .error "Unexpected non-whitespace character after JSON"
  | none => .error "Unexpected token in JSON"

/-! ## The declared response schema (`responseSchema`, geminiService.ts lines 4-61) -/

/-- The subset of the `@google/genai` `Schema` language the source uses:
`Type.STRING`, `Type.NUMBER`, `Type.OBJECT` with `properties`/`required`,
and `Type.ARRAY` with `items`.  Documentation strings are metadata and are
not modelled. -/
inductive Schema where
  | string : Schema
  | number : Schema
  | object : List (String × Schema) → List String → Schema
  | array : Schema → Schema

/-- Does a JSON value conform to a declared schema?  An object conforms when
every `required` key is present and every declared property that is present
conforms to its declared schema.  The fuel bounds the schema nesting depth;
it is structural, so the checker evaluates by reduction. -/
def conforms (fuel : Nat) (sch : Schema) (j : Json) : Bool :=
  match fuel with
  | 0 => false
  | fuel + 1 =>
    match sch, j with
    | .string, .str _ => true
    | .number, .num _ => true
    | .array it, .arr xs => xs.all (conforms fuel it)
    | .object props req, .obj fields =>
      req.all (fun k => (jlookup fields k).isSome) &&
      props.all (fun p =>
        match jlookup fields p.1 with
        | none => true
        | some v => conforms fuel p.2 v)
    | _, _ => false

/-- The `phases` item schema. -/
def phaseSchema : Schema :=
  .object
    [ ("name", .string), ("durationWeeks", .number),
      ("costEstimate", .number), ("description", .string) ]
    ["name", "durationWeeks", "costEstimate", "description"]

/-- The `roiProjection` item schema. -/
def roiSchema : Schema :=
  .object [ ("year", .number), ("value", .number) ] ["year", "value"]

/-- The `co2Savings` item schema. -/
def co2Schema : Schema :=
  .object
    [ ("category", .string), ("savingTons", .number), ("description", .string) ]
    ["category", "savingTons", "description"]

/-- The `funding` item schema. -/
def fundingSchema : Schema :=
  .object
    [ ("name", .string), ("amount", .string), ("description", .string) ]
    ["name", "amount", "description"]

/-- `responseSchema` for the plan request, transcribed from the source. -/
def responseSchema : Schema :=
  .object
    [ ("summary", .string),
      ("buildingStyle", .string),
      ("phases", .array phaseSchema),
      ("roiProjection", .array roiSchema),
      ("co2Savings", .array co2Schema),
      ("funding", .array fundingSchema),
      ("totalCost", .number),
      ("totalDuration", .number) ]
    ["summary", "phases", "roiProjection", "co2Savings", "funding",
     "totalCost", "totalDuration", "buildingStyle"]

/-- Conformance to the declared plan schema.  `responseSchema` nests four
levels deep (plan object, phase arrays, phase objects, leaf fields), so fuel
4 is exact. -/
def conformsToSchema (j : Json) : Bool := conforms 4 responseSchema j

/-! ## The plan data model (`src/types.ts`) -/

structure RenovationPhase where
  name : String
  durationWeeks : ℚ
  costEstimate : ℚ
  description : String
deriving DecidableEq

structure RoiMetric where
  year : ℚ
  value : ℚ
deriving DecidableEq

structure Co2Metric where
  category : String
  savingTons : ℚ
  description : String
deriving DecidableEq

structure FundingBadge where
  name : String
  amount : String
  description : String
deriving DecidableEq

structure RenovationPlan where
  summary : String
  buildingStyle : String
  phases : List RenovationPhase
  roiProjection : List RoiMetric
  co2Savings : List Co2Metric
  funding : List FundingBadge
  totalCost : ℚ
  totalDuration : ℚ
deriving DecidableEq

structure PropertyDetails where
  address : String
  sqm : Int
  budget : Int
  currentEfficiency : String
deriving DecidableEq

/-- An uploaded image.  The browser `File` handle of the source interface is
not representable and is omitted; the fields the service calls read are the
mime `type` and the `base64` payload. -/
structure ImageAsset where
  id : String
  previewUrl : String
  base64 : String
  type : String
deriving DecidableEq

/-! ## Reading a parsed response as a typed `RenovationPlan`

`analyzeRenovation` casts the `JSON.parse` result to `RenovationPlan` without
any runtime conversion; the functions below model what the TypeScript
interface promises about that value, used to state that the typed reading of
a schema-conformant payload loses nothing. -/

def asStr : Json → Option String
  | .str s => some s
  | _ => none

def asNum : Json → Option ℚ
  | .num q => some q
  | _ => none

def asArr : Json → Option (List Json)
  | .arr xs => some xs
  | _ => none

def getField : Json → String → Option Json
  | .obj fields, k => jlookup fields k
  | _, _ => none

def decodeList (f : Json → Option α) : List Json → Option (List α)
  | [] => some []
  | x :: xs =>
    match f x, decodeList f xs with
    | some a, some rest => some (a :: rest)
    | _, _ => none

def decodePhase (j : Json) : Option RenovationPhase :=
  match getField j "name" >>= asStr, getField j "durationWeeks" >>= asNum,
        getField j "costEstimate" >>= asNum, getField j "description" >>= asStr with
  | some n, some d, some c, some de => some ⟨n, d, c, de⟩
  | _, _, _, _ => none

def decodeRoi (j : Json) : Option RoiMetric :=
  match getField j "year" >>= asNum, getField j "value" >>= asNum with
  | some y, some v => some ⟨y, v⟩
  | _, _ => none

def decodeCo2 (j : Json) : Option Co2Metric :=
  match getField j "category" >>= asStr, getField j "savingTons" >>= asNum,
        getField j "description" >>= asStr with
  | some c, some s, some d => some ⟨c, s, d⟩
  | _, _, _ => none

def decodeFunding (j : Json) : Option FundingBadge :=
  match getField j "name" >>= asStr, getField j "amount" >>= asStr,
        getField j "description" >>= asStr with
  | some n, some a, some d => some ⟨n, a, d⟩
  | _, _, _ => none

def decodePlan (j : Json) : Option RenovationPlan :=
  match getField j "summary" >>= asStr, getField j "buildingStyle" >>= asStr,
        (getField j "phases" >>= asArr).bind (decodeList decodePhase),
        (getField j "roiProjection" >>= asArr).bind (decodeList decodeRoi),
        (getField j "co2Savings" >>= asArr).bind (decodeList decodeCo2),
        (getField j "funding" >>= asArr).bind (decodeList decodeFunding),
        getField j "totalCost" >>= asNum, getField j "totalDuration" >>= asNum with
  | some su, some bs, some ph, some roi, some co2, some fu, some tc, some td =>
    some ⟨su, bs, ph, roi, co2, fu, tc, td⟩
  | _, _, _, _, _, _, _, _ => none

/-! ## Errors

The source throws plain JavaScript `Error`/`SyntaxError` values and rethrows
service-SDK errors unchanged; the constructors below model the distinct error
classes that reach the caller. -/

/-- A transport/service-level failure raised by the SDK (auth, quota,
network), propagated unchanged by the `catch` blocks. -/
structure ServiceErr where
  message : String
deriving DecidableEq

inductive GenError where
  | emptyResponse : GenError
  | malformedPayload : String → GenError
  | service : ServiceErr → GenError
deriving DecidableEq

inductive AssetError where
  | noImageProduced : AssetError
  | service : ServiceErr → AssetError
deriving DecidableEq

/-! ## Plan generation (`analyzeRenovation`, geminiService.ts lines 63-118) -/

structure InlinePart where
  mimeType : String
  data : String
deriving DecidableEq

inductive ReqPart where
  | inlineData : InlinePart → ReqPart
  | text : String → ReqPart
deriving DecidableEq

structure GenConfig where
  responseMimeType : String
  responseSchema : Schema
  temperature : ℚ

structure GenRequest where
  model : String
  parts : List ReqPart
  config : GenConfig

/-- The literal segments of the prompt template of `analyzeRenovation`
(lines 80-91), split at the interpolation points. -/
def promptIntro : String :=
  "\n    Act as an expert renovation consultant for multifamily properties in Berlin, Germany.\n    Analyze the provided images of the property and the following details:\n    Address: "

def promptSize : String := "\n    Size: "

def promptBudget : String := " sqm\n    Budget: €"

def promptEff : String := "\n    Current Efficiency Class: "

def promptOutro : String :=
  "\n\n    Generate a comprehensive renovation plan that focuses on energy efficiency, ROI, and modernization.\n    Include specific German funding programs (KfW, BAFA) where applicable.\n    Provide realistic timelines and cost estimates for Berlin market rates.\n  "

/-- The prompt template literal of `analyzeRenovation` (lines 80-91), with the
property details interpolated.  `sqm` and `budget` are integer-valued numbers
in every reachable state, so their JavaScript stringification agrees with
`Int` stringification. -/
def buildPrompt (details : PropertyDetails) : String :=
  promptIntro ++ details.address
  ++ promptSize ++ toString details.sqm
  ++ promptBudget ++ toString details.budget
  ++ promptEff ++ details.currentEfficiency
  ++ promptOutro

/-- The request `analyzeRenovation` sends: the image parts in input order
followed by the instruction text, with the declared response schema and
temperature 0.4. -/
def buildAnalyzeRequest (details : PropertyDetails) (images : List ImageAsset) :
    GenRequest :=
  { model := "gemini-2.5-flash"
    parts := images.map (fun img => ReqPart.inlineData ⟨img.type, img.base64⟩)
      ++ [ReqPart.text (buildPrompt details)]
    config :=
      { responseMimeType := "application/json"
        responseSchema := responseSchema
        temperature := 2 / 5 } }

/-- What the awaited `generateContent` call produces: either a thrown
service error, or a response object whose `.text` is the (possibly absent)
response text. -/
inductive ServiceOutcome where
  | failure : ServiceErr → ServiceOutcome
  | reply : Option String → ServiceOutcome

/-- `analyzeRenovation`: builds the request, sends it once, requires non-empty
response text (`if (!text) throw`), and returns `JSON.parse(text)` cast to
`RenovationPlan` — the parsed value itself, with no field validation.  Every
thrown error is rethrown unchanged by the `catch` block. -/
def analyzeRenovation (details : PropertyDetails) (images : List ImageAsset)
    (service : GenRequest → ServiceOutcome) : Except GenError Json :=
  match service (buildAnalyzeRequest details images) with
  | .failure e => .error (.service e)
  | .reply none => .error .emptyResponse
  | .reply (some text) =>
    if text = "" then .error .emptyResponse
    else
      match parseJson text with
      | .ok plan => .ok plan
      | .error m => .error (.malformedPayload m)

/-! ## Image generation (`generateRenovationImage`, `generateBlueprintImage`) -/

/-- An inline data blob in a response part (`part.inlineData`). -/
structure RespInline where
  mimeType : String
  data : String
deriving DecidableEq

structure RespPart where
  inlineData : Option RespInline
  text : Option String
deriving DecidableEq

structure RespContent where
  parts : Option (List RespPart)
deriving DecidableEq

structure Candidate where
  content : Option RespContent
deriving DecidableEq

structure GenResponse where
  candidates : List Candidate
deriving DecidableEq

/-- `response.candidates?.[0]?.content?.parts || []`: the parts of the first
candidate, or the empty list when any link in the chain is absent. -/
def firstCandidateParts (r : GenResponse) : List RespPart :=
  match r.candidates with
  | [] => []
  | c :: _ =>
    match c.content with
    | none => []
    | some ct => ct.parts.getD []

/-- The `for (const part of ...) if (part.inlineData)` loop: first part
carrying inline data. -/
def firstInline : List RespPart → Option RespInline
  | [] => none
  | p :: rest =>
    match p.inlineData with
    | some d => some d
    | none => firstInline rest

/-- `'1K' | '2K' | '4K'`. -/
inductive ImageSize where
  | k1 | k2 | k4
deriving DecidableEq

def imageSizeLabel : ImageSize → String
  | .k1 => "1K"
  | .k2 => "2K"
  | .k4 => "4K"

structure ImageConfig where
  -- the source names this field aspectRatio
  aspect : String
  imageSize : String
deriving DecidableEq

structure ImageRequest where
  model : String
  parts : List ReqPart
  imageConfig : ImageConfig

def buildRenovationImagePrompt (prompt style : String) : String :=
  "Photorealistic architectural visualization of a building renovation phase in Berlin. \n  Style: "
  ++ style ++ ". \n  Phase detail: " ++ prompt
  ++ ". \n  Professional architectural photography, high detail, daylight, 8k resolution."

def buildBlueprintPrompt (phaseName description style : String) : String :=
  "Technical architectural blueprint drawing of a building renovation phase.\n  Phase: "
  ++ phaseName ++ ".\n  Description: " ++ description
  ++ ".\n  Building Style: " ++ style
  ++ ".\n  Visual Style: Classic blueprint, white technical lines on blue background, schematic, precise, high contrast, top-down or isometric view."

/-- Shared response handling of both image functions: return the first inline
payload of the first candidate as a PNG data URL, else fail; rethrow service
errors unchanged. -/
def extractImage (outcome : Except ServiceErr GenResponse) : Except AssetError String :=
  match outcome with
  | .error e => .error (.service e)
  | .ok resp =>
    match firstInline (firstCandidateParts resp) with
    | some d => .ok ("data:image/png;base64," ++ d.data)
    | none => .error .noImageProduced

/-- The request `generateRenovationImage` sends. -/
def renovationImageRequest (prompt style : String) (size : ImageSize) : ImageRequest :=
  { model := "gemini-3-pro-image-preview"
    parts := [.text (buildRenovationImagePrompt prompt style)]
    imageConfig := ⟨"16:9", imageSizeLabel size⟩ }

/-- The request `generateBlueprintImage` sends; fixed resolution tier "1K". -/
def blueprintImageRequest (phaseName description style : String) : ImageRequest :=
  { model := "gemini-3-pro-image-preview"
    parts := [.text (buildBlueprintPrompt phaseName description style)]
    imageConfig := ⟨"16:9", "1K"⟩ }

/-- `generateRenovationImage(prompt, style, size)` (lines 120-160). -/
def generateRenovationImage (prompt style : String) (size : ImageSize)
    (service : ImageRequest → Except ServiceErr GenResponse) : Except AssetError String :=
  extractImage (service (renovationImageRequest prompt style size))

/-- `generateBlueprintImage(phaseName, description, style)` (lines 162-202). -/
def generateBlueprintImage (phaseName description style : String)
    (service : ImageRequest → Except ServiceErr GenResponse) : Except AssetError String :=
  extractImage (service (blueprintImageRequest phaseName description style))

/-! ## Dashboard state and handlers (Dashboard component) -/

/-- The optional `window.aistudio` host hook: the result of
`hasSelectedApiKey()` and whether `openSelectKey()` resolves (true) or
throws (false). -/
structure AiStudioHook where
  hasSelectedApiKey : Bool
  openSelectKeyOk : Bool
deriving DecidableEq

/-- `checkApiKey` (Dashboard lines 90-105): absent hook means proceed. -/
def checkApiKey : Option AiStudioHook → Bool
  | none => true
  | some h => if h.hasSelectedApiKey then true else h.openSelectKeyOk

/-- Dashboard view state: per-phase generated assets and in-progress flags,
keyed by phase index (JavaScript objects indexed by number; an absent key
reads as `undefined`/false), plus the immutable plan prop. -/
structure DashState where
  phaseImages : Nat → Option String
  generatingPhase : Nat → Bool
  blueprints : Nat → Option String
  generatingBlueprint : Nat → Bool
  plan : RenovationPlan

/-- `(prev) => ({...prev, [index]: v})` on an asset map. -/
def setAsset (m : Nat → Option String) (i : Nat) (v : String) : Nat → Option String :=
  fun j => if j = i then some v else m j

/-- `(prev) => ({...prev, [index]: b})` on a flag map. -/
def setFlag (m : Nat → Bool) (i : Nat) (b : Bool) : Nat → Bool :=
  fun j => if j = i then b else m j

/-- `handleGenerateImage(index, description)` (Dashboard lines 107-120):
after the credential pre-check, set the in-progress flag, await the
generation call, store the URL on success (a failure only alerts), and clear
the flag in `finally`.  Returns the resulting state and whether the
generation request was issued. -/
def handleGenerateImage (hook : Option AiStudioHook) (index : Nat)
    (outcome : Except AssetError String) (s : DashState) : DashState × Bool :=
  if checkApiKey hook then
    let s1 : DashState := { s with generatingPhase := setFlag s.generatingPhase index true }
    let s2 : DashState :=
      match outcome with
      | .ok url => { s1 with phaseImages := setAsset s1.phaseImages index url }
      | .error _ => s1
    ({ s2 with generatingPhase := setFlag s2.generatingPhase index false }, true)
  else (s, false)

/-- `handleGenerateBlueprint(index, name, description)` (lines 122-135). -/
def handleGenerateBlueprint (hook : Option AiStudioHook) (index : Nat)
    (outcome : Except AssetError String) (s : DashState) : DashState × Bool :=
  if checkApiKey hook then
    let s1 : DashState := { s with generatingBlueprint := setFlag s.generatingBlueprint index true }
    let s2 : DashState :=
      match outcome with
      | .ok url => { s1 with blueprints := setAsset s1.blueprints index url }
      | .error _ => s1
    ({ s2 with generatingBlueprint := setFlag s2.generatingBlueprint index false }, true)
  else (s, false)

/-! ## App session state (`App` component) -/

structure AppState where
  step : Nat
  isLoading : Bool
  error : Option String
  images : List ImageAsset
  details : PropertyDetails
  plan : Option RenovationPlan

def defaultDetails : PropertyDetails :=
  { address := "", sqm := 500, budget := 250000, currentEfficiency := "E" }

def initialAppState : AppState :=
  { step := 1, isLoading := false, error := none, images := [],
    details := defaultDetails, plan := none }

/-- `handleReset` (App component): resets step, images, plan and details. -/
def handleReset (s : AppState) : AppState :=
  { s with step := 1, images := [], plan := none, details := defaultDetails }

def updateAddress (a : String) (s : AppState) : AppState :=
  { s with details := { s.details with address := a } }

def updateSqm (n : Int) (s : AppState) : AppState :=
  { s with details := { s.details with sqm := n } }

def updateBudget (n : Int) (s : AppState) : AppState :=
  { s with details := { s.details with budget := n } }

def updateEfficiency (c : String) (s : AppState) : AppState :=
  { s with details := { s.details with currentEfficiency := c } }

def updateImages (imgs : List ImageAsset) (s : AppState) : AppState :=
  { s with images := imgs }

/-- Start of a valid `handleAnalysis` run: `setIsLoading(true); setError(null)`. -/
def analysisStart (s : AppState) : AppState :=
  { s with isLoading := true, error := none }

/-- Successful completion: `setPlan(p); setStep(3)` and the `finally`. -/
def analysisSuccess (p : RenovationPlan) (s : AppState) : AppState :=
  { s with plan := some p, step := 3, isLoading := false }

/-- Failed completion: the `catch` and the `finally`. -/
def analysisFailure (s : AppState) : AppState :=
  { s with
    error := some "Failed to generate plan. Please try again or check your API Key."
    isLoading := false }

/-- Reachable session states.  Guards mirror the UI: the form and the
Generate button are rendered at step 1 and the button is disabled while
loading or when the address/images preconditions fail; an analysis
completion requires an in-flight analysis; the dashboard (and its reset
action) is rendered at step 3. -/
inductive Reachable : AppState → Prop where
  | init : Reachable initialAppState
  | updAddress {s} (a : String) : Reachable s → s.step = 1 → Reachable (updateAddress a s)
  | updSqm {s} (n : Int) : Reachable s → s.step = 1 → Reachable (updateSqm n s)
  | updBudget {s} (n : Int) : Reachable s → s.step = 1 → Reachable (updateBudget n s)
  | updEfficiency {s} (c : String) : Reachable s → s.step = 1 → Reachable (updateEfficiency c s)
  | updImages {s} (imgs : List ImageAsset) : Reachable s → s.step = 1 →
      Reachable (updateImages imgs s)
  | analyzeStart {s} : Reachable s → s.step = 1 → s.isLoading = false →
      s.details.address ≠ "" → s.images ≠ [] → Reachable (analysisStart s)
  | analyzeSuccess {s} (p : RenovationPlan) : Reachable s → s.isLoading = true →
      Reachable (analysisSuccess p s)
  | analyzeFailure {s} : Reachable s → s.isLoading = true → Reachable (analysisFailure s)
  | reset {s} : Reachable s → s.step = 3 → Reachable (handleReset s)

/-! ## Observations on requests and responses, used to state the claims -/

/-- The inline image parts of a plan request, in order. -/
def imageParts (r : GenRequest) : List InlinePart :=
  r.parts.filterMap fun p =>
    match p with
    | .inlineData ip => some ip
    | .text _ => none

/-- The instruction text parts of a plan request, in order. -/
def instructionParts (r : GenRequest) : List String :=
  r.parts.filterMap fun p =>
    match p with
    | .inlineData _ => none
    | .text t => some t

/-- `sub` occurs verbatim (as a contiguous substring) in `s`. -/
def ContainsStr (s sub : String) : Prop :=
  ∃ pre post, s = pre ++ sub ++ post

/-- Does any part of any candidate of the response carry inline image data? -/
def responseHasInline (r : GenResponse) : Bool :=
  r.candidates.any fun c =>
    match c.content with
    | none => false
    | some ct => (ct.parts.getD []).any fun p => p.inlineData.isSome

/-! ## Concrete fixtures for witnesses and counterexamples -/

def sampleImage : ImageAsset :=
  { id := "img1", previewUrl := "data:image/jpeg;base64,QQ==",
    base64 := "QQ==", type := "image/jpeg" }

def sampleDetails : PropertyDetails :=
  { address := "Torstraße 45, Berlin", sqm := 500, budget := 250000,
    currentEfficiency := "E" }

def samplePlan : RenovationPlan :=
  { summary := "", buildingStyle := "", phases := [], roiProjection := [],
    co2Savings := [], funding := [], totalCost := 0, totalDuration := 0 }

def sampleDash : DashState :=
  { phaseImages := fun _ => none, generatingPhase := fun _ => false,
    blueprints := fun _ => none, generatingBlueprint := fun _ => false,
    plan := samplePlan }

/-- A schema-conformant mocked response text with `totalCost: 180000`,
`totalDuration: 26` and two phases. -/
def mockPlanText : String :=
  "\x7b\"summary\":\"s\",\"buildingStyle\":\"Altbau\",\"phases\":[\x7b\"name\":\"p1\",\"durationWeeks\":10,\"costEstimate\":90000,\"description\":\"d1\"\x7d,\x7b\"name\":\"p2\",\"durationWeeks\":16,\"costEstimate\":90000,\"description\":\"d2\"\x7d],\"roiProjection\":[],\"co2Savings\":[],\"funding\":[],\"totalCost\":180000,\"totalDuration\":26\x7d"

/-- `JSON.parse` of `mockPlanText`. -/
def mockPlanJson : Json :=
  .obj
    [ ("summary", .str "s"),
      ("buildingStyle", .str "Altbau"),
      ("phases", .arr
        [ .obj [("name", .str "p1"), ("durationWeeks", .num 10),
                ("costEstimate", .num 90000), ("description", .str "d1")],
          .obj [("name", .str "p2"), ("durationWeeks", .num 16),
                ("costEstimate", .num 90000), ("description", .str "d2")] ]),
      ("roiProjection", .arr []),
      ("co2Savings", .arr []),
      ("funding", .arr []),
      ("totalCost", .num 180000),
      ("totalDuration", .num 26) ]

/-- The typed reading of `mockPlanJson`. -/
def mockPlan : RenovationPlan :=
  { summary := "s", buildingStyle := "Altbau",
    phases := [⟨"p1", 10, 90000, "d1"⟩, ⟨"p2", 16, 90000, "d2"⟩],
    roiProjection := [], co2Savings := [], funding := [],
    totalCost := 180000, totalDuration := 26 }

/-- A response whose first candidate has only a text part, while its second
candidate carries inline image data. -/
def respSecondCandidate : GenResponse :=
  { candidates :=
      [ { content := some { parts := some [{ inlineData := none, text := some "analysis" }] } },
        { content := some { parts := some [{ inlineData := some ⟨"image/png", "Zg=="⟩, text := none }] } } ] }

/-- A response with no inline data anywhere. -/
def respNoImage : GenResponse :=
  { candidates := [ { content := some { parts := some [{ inlineData := none, text := some "t" }] } } ] }

/-- A response whose first candidate's second part carries inline data with a
non-PNG declared mime type. -/
def respJpeg : GenResponse :=
  { candidates :=
      [ { content := some { parts := some (
            [ { inlineData := none, text := some "t" },
              { inlineData := some ⟨"image/jpeg", "AAAA"⟩, text := none } ]) } } ] }

/-- A concrete reachable dashboard-stage session state. -/
def reachedStep3 : AppState :=
  analysisSuccess samplePlan
    (analysisStart (updateImages [sampleImage]
      (updateAddress "Torstraße 45, Berlin" initialAppState)))

/-! ## Helper lemmas -/

theorem parseJson_empty : parseJson "" = .error "Unexpected token in JSON" := rfl

theorem parseJson_ok_ne_empty {text : String} {j : Json}
    (h : parseJson text = .ok j) : text ≠ "" := by
  intro he
  rw [he, parseJson_empty] at h
  exact Except.noConfusion h

theorem conforms_string_shape {f : Nat} {j : Json}
    (h : conforms (f + 1) .string j = true) : ∃ s, j = .str s := by
  cases j <;> simp [conforms] at h ⊢

theorem conforms_number_shape {f : Nat} {j : Json}
    (h : conforms (f + 1) .number j = true) : ∃ q, j = .num q := by
  cases j <;> simp [conforms] at h ⊢

theorem conforms_array_shape {f : Nat} {it : Schema} {j : Json}
    (h : conforms (f + 1) (.array it) j = true) :
    ∃ xs, j = .arr xs ∧ ∀ x ∈ xs, conforms f it x = true := by
  cases j <;> simp [conforms, List.all_eq_true] at h ⊢
  exact h

theorem decodeList_isSome {α : Type} {f : Json → Option α} {xs : List Json}
    (h : ∀ x ∈ xs, (f x).isSome = true) :
    ∃ ys, decodeList f xs = some ys ∧ ys.length = xs.length := by
  induction xs with
  | nil => exact ⟨[], rfl, rfl⟩
  | cons x xs ih =>
    have hx := h x (List.mem_cons_self x xs)
    obtain ⟨a, ha⟩ := Option.isSome_iff_exists.mp hx
    obtain ⟨ys, hys, hlen⟩ := ih fun y hy => h y (List.mem_cons_of_mem x hy)
    exact ⟨a :: ys, by simp [decodeList, ha, hys], by simp [hlen]⟩

theorem conforms_obj_required {f : Nat} {props : List (String × Schema)}
    {req : List String} {fields : List (String × Json)} {k : String}
    (h : conforms (f + 1) (.object props req) (.obj fields) = true)
    (hk : k ∈ req) : (jlookup fields k).isSome = true := by
  simp only [conforms, Bool.and_eq_true, List.all_eq_true] at h
  exact h.1 k hk

theorem conforms_obj_prop {f : Nat} {props : List (String × Schema)}
    {req : List String} {fields : List (String × Json)} {k : String}
    {sch : Schema} {v : Json}
    (h : conforms (f + 1) (.object props req) (.obj fields) = true)
    (hmem : (k, sch) ∈ props) (hv : jlookup fields k = some v) :
    conforms f sch v = true := by
  simp only [conforms, Bool.and_eq_true, List.all_eq_true] at h
  have hp := h.2 (k, sch) hmem
  rw [hv] at hp
  exact hp

theorem conforms_field_string {f : Nat} {props : List (String × Schema)}
    {req : List String} {fields : List (String × Json)} {k : String}
    (h : conforms (f + 1 + 1) (.object props req) (.obj fields) = true)
    (hr : k ∈ req) (hp : (k, Schema.string) ∈ props) :
    ∃ s, jlookup fields k = some (.str s) := by
  obtain ⟨v, hv⟩ := Option.isSome_iff_exists.mp (conforms_obj_required h hr)
  obtain ⟨s, rfl⟩ := conforms_string_shape (conforms_obj_prop h hp hv)
  exact ⟨s, hv⟩

theorem conforms_field_number {f : Nat} {props : List (String × Schema)}
    {req : List String} {fields : List (String × Json)} {k : String}
    (h : conforms (f + 1 + 1) (.object props req) (.obj fields) = true)
    (hr : k ∈ req) (hp : (k, Schema.number) ∈ props) :
    ∃ q, jlookup fields k = some (.num q) := by
  obtain ⟨v, hv⟩ := Option.isSome_iff_exists.mp (conforms_obj_required h hr)
  obtain ⟨q, rfl⟩ := conforms_number_shape (conforms_obj_prop h hp hv)
  exact ⟨q, hv⟩

theorem conforms_field_array {f : Nat} {props : List (String × Schema)}
    {req : List String} {fields : List (String × Json)} {k : String} {t : Schema}
    (h : conforms (f + 1 + 1) (.object props req) (.obj fields) = true)
    (hr : k ∈ req) (hp : (k, Schema.array t) ∈ props) :
    ∃ xs, jlookup fields k = some (.arr xs) ∧ ∀ x ∈ xs, conforms f t x = true := by
  obtain ⟨v, hv⟩ := Option.isSome_iff_exists.mp (conforms_obj_required h hr)
  obtain ⟨xs, rfl, hall⟩ := conforms_array_shape (conforms_obj_prop h hp hv)
  exact ⟨xs, hv, hall⟩

theorem conforms_decodePhase {f : Nat} {j : Json}
    (h : conforms (f + 1 + 1) phaseSchema j = true) :
    (decodePhase j).isSome = true := by
  rw [show phaseSchema = Schema.object
    [("name", .string), ("durationWeeks", .number),
     ("costEstimate", .number), ("description", .string)]
    ["name", "durationWeeks", "costEstimate", "description"] from rfl] at h
  cases j with
  | obj fields =>
    obtain ⟨n, hn⟩ := conforms_field_string (k := "name") h (by simp) (by simp)
    obtain ⟨dw, hdw⟩ := conforms_field_number (k := "durationWeeks") h (by simp) (by simp)
    obtain ⟨ce, hce⟩ := conforms_field_number (k := "costEstimate") h (by simp) (by simp)
    obtain ⟨de, hde⟩ := conforms_field_string (k := "description") h (by simp) (by simp)
    simp [decodePhase, getField, hn, hdw, hce, hde, asStr, asNum]
  | _ => simp [conforms] at h

theorem conforms_decodeRoi {f : Nat} {j : Json}
    (h : conforms (f + 1 + 1) roiSchema j = true) :
    (decodeRoi j).isSome = true := by
  rw [show roiSchema = Schema.object [("year", .number), ("value", .number)]
    ["year", "value"] from rfl] at h
  cases j with
  | obj fields =>
    obtain ⟨y, hy⟩ := conforms_field_number (k := "year") h (by simp) (by simp)
    obtain ⟨v, hv⟩ := conforms_field_number (k := "value") h (by simp) (by simp)
    simp [decodeRoi, getField, hy, hv, asNum]
  | _ => simp [conforms] at h

theorem conforms_decodeCo2 {f : Nat} {j : Json}
    (h : conforms (f + 1 + 1) co2Schema j = true) :
    (decodeCo2 j).isSome = true := by
  rw [show co2Schema = Schema.object
    [("category", .string), ("savingTons", .number), ("description", .string)]
    ["category", "savingTons", "description"] from rfl] at h
  cases j with
  | obj fields =>
    obtain ⟨c, hc⟩ := conforms_field_string (k := "category") h (by simp) (by simp)
    obtain ⟨s, hs⟩ := conforms_field_number (k := "savingTons") h (by simp) (by simp)
    obtain ⟨d, hd⟩ := conforms_field_string (k := "description") h (by simp) (by simp)
    simp [decodeCo2, getField, hc, hs, hd, asStr, asNum]
  | _ => simp [conforms] at h

theorem conforms_decodeFunding {f : Nat} {j : Json}
    (h : conforms (f + 1 + 1) fundingSchema j = true) :
    (decodeFunding j).isSome = true := by
  rw [show fundingSchema = Schema.object
    [("name", .string), ("amount", .string), ("description", .string)]
    ["name", "amount", "description"] from rfl] at h
  cases j with
  | obj fields =>
    obtain ⟨n, hn⟩ := conforms_field_string (k := "name") h (by simp) (by simp)
    obtain ⟨a, ha⟩ := conforms_field_string (k := "amount") h (by simp) (by simp)
    obtain ⟨d, hd⟩ := conforms_field_string (k := "description") h (by simp) (by simp)
    simp [decodeFunding, getField, hn, ha, hd, asStr]
  | _ => simp [conforms] at h

/-- A schema-conformant payload decodes to a typed plan whose numeric fields
and phase count are exactly the payload's. -/
theorem conformsToSchema_decode {j : Json} (h : conformsToSchema j = true) :
    ∃ p, decodePlan j = some p ∧
      getField j "totalCost" = some (.num p.totalCost) ∧
      getField j "totalDuration" = some (.num p.totalDuration) ∧
      ∃ xs, getField j "phases" = some (.arr xs) ∧ p.phases.length = xs.length := by
  rw [show conformsToSchema j = conforms (2 + 1 + 1) (.object
    [ ("summary", .string), ("buildingStyle", .string),
      ("phases", .array phaseSchema), ("roiProjection", .array roiSchema),
      ("co2Savings", .array co2Schema), ("funding", .array fundingSchema),
      ("totalCost", .number), ("totalDuration", .number) ]
    ["summary", "phases", "roiProjection", "co2Savings", "funding",
     "totalCost", "totalDuration", "buildingStyle"]) j from rfl] at h
  cases j with
  | obj fields =>
    obtain ⟨su, hsu⟩ := conforms_field_string (k := "summary") h (by simp) (by simp)
    obtain ⟨bs, hbs⟩ := conforms_field_string (k := "buildingStyle") h (by simp) (by simp)
    obtain ⟨phs, hphs, hphall⟩ := conforms_field_array (k := "phases") (t := phaseSchema) h (by simp) (by simp)
    obtain ⟨rois, hrois, hroiall⟩ := conforms_field_array (k := "roiProjection") (t := roiSchema) h (by simp) (by simp)
    obtain ⟨co2s, hco2s, hco2all⟩ := conforms_field_array (k := "co2Savings") (t := co2Schema) h (by simp) (by simp)
    obtain ⟨fus, hfus, hfuall⟩ := conforms_field_array (k := "funding") (t := fundingSchema) h (by simp) (by simp)
    obtain ⟨tc, htc⟩ := conforms_field_number (k := "totalCost") h (by simp) (by simp)
    obtain ⟨td, htd⟩ := conforms_field_number (k := "totalDuration") h (by simp) (by simp)
    obtain ⟨ph, hph, hphlen⟩ := decodeList_isSome
      (fun x hx => conforms_decodePhase (f := 0) (hphall x hx))
    obtain ⟨roi, hroi, _⟩ := decodeList_isSome
      (fun x hx => conforms_decodeRoi (f := 0) (hroiall x hx))
    obtain ⟨co2, hco2, _⟩ := decodeList_isSome
      (fun x hx => conforms_decodeCo2 (f := 0) (hco2all x hx))
    obtain ⟨fu, hfu, _⟩ := decodeList_isSome
      (fun x hx => conforms_decodeFunding (f := 0) (hfuall x hx))
    refine ⟨⟨su, bs, ph, roi, co2, fu, tc, td⟩, ?_, ?_, ?_, phs, ?_, ?_⟩
    · simp [decodePlan, getField, hsu, hbs, hphs, hrois, hco2s, hfus, htc, htd,
        asStr, asNum, asArr, hph, hroi, hco2, hfu]
    · simpa [getField] using htc
    · simpa [getField] using htd
    · simpa [getField] using hphs
    · exact hphlen
  | _ => simp [conforms] at h

/-! ## Claims -/

/-- C1, counterexample: the response text consisting of an empty JSON object
parses, is not schema-conformant (every required field is absent), yet
`analyzeRenovation` returns it as a plan instead of failing — the claim's
"parseable JSON with required fields absent" case does not fail. -/
theorem c1_counterexample :
    analyzeRenovation sampleDetails [sampleImage]
        (fun _ => .reply (some "\x7b\x7d")) = .ok (Json.obj []) ∧
    conformsToSchema (Json.obj []) = false ∧
    decodePlan (Json.obj []) = none :=
  ⟨rfl, rfl, rfl⟩

/-- C1, amended: for every non-empty response text that does not parse as
JSON, `analyzeRenovation` fails with the propagated parse error (malformed
payload) and returns no plan; but a parseable response is returned without
validation of the declared schema's required fields. -/
theorem c1_unparseable_all_or_nothing :
    ∀ (details : PropertyDetails) (images : List ImageAsset)
      (service : GenRequest → ServiceOutcome) (text m : String),
      service (buildAnalyzeRequest details images) = .reply (some text) →
      text ≠ "" →
      parseJson text = .error m →
      analyzeRenovation details images service = .error (.malformedPayload m) := by
  intro d imgs svc text m hsvc hne hparse
  unfold analyzeRenovation
  rw [hsvc]
  simp [hne, hparse]

theorem c1_unparseable_all_or_nothing_witness :
    analyzeRenovation sampleDetails [sampleImage] (fun _ => .reply (some "not json"))
      = .error (.malformedPayload "Unexpected token in JSON") :=
  c1_unparseable_all_or_nothing sampleDetails [sampleImage]
    (fun _ => ServiceOutcome.reply (some "not json")) "not json" _
    rfl (by decide) rfl

/-- C2: for non-empty address and images, the built request's inline image
parts are exactly the input images' mime type and base64 data in input order
(hence equal counts), its single instruction text is the prompt, and the
prompt contains the address, floor area, budget and efficiency class
verbatim. -/
theorem c2_request_builder :
    ∀ (details : PropertyDetails) (images : List ImageAsset),
      details.address ≠ "" → images ≠ [] →
      imageParts (buildAnalyzeRequest details images)
          = images.map (fun img => InlinePart.mk img.type img.base64) ∧
      (imageParts (buildAnalyzeRequest details images)).length = images.length ∧
      instructionParts (buildAnalyzeRequest details images) = [buildPrompt details] ∧
      ContainsStr (buildPrompt details) details.address ∧
      ContainsStr (buildPrompt details) (toString details.sqm) ∧
      ContainsStr (buildPrompt details) (toString details.budget) ∧
      ContainsStr (buildPrompt details) details.currentEfficiency := by
  intro d imgs _ _
  have hinl : ∀ l : List ImageAsset,
      List.filterMap
        (fun p => match p with
          | ReqPart.inlineData ip => some ip
          | ReqPart.text _ => none)
        (l.map fun img => ReqPart.inlineData ⟨img.type, img.base64⟩)
      = l.map fun img => InlinePart.mk img.type img.base64 := by
    intro l
    induction l with
    | nil => rfl
    | cons a t ih => simp [List.filterMap_cons, ih]
  have hmap : imageParts (buildAnalyzeRequest d imgs)
      = imgs.map (fun img => InlinePart.mk img.type img.base64) := by
    simp [imageParts, buildAnalyzeRequest, List.filterMap_append, hinl]
  refine ⟨hmap, by rw [hmap]; simp, ?_, ?_, ?_, ?_, ?_⟩
  · simp [instructionParts, buildAnalyzeRequest, List.filterMap_append, List.filterMap_map,
      Function.comp]
  · exact ⟨promptIntro,
      promptSize ++ toString d.sqm ++ promptBudget ++ toString d.budget
        ++ promptEff ++ d.currentEfficiency ++ promptOutro,
      by simp [buildPrompt, String.append_assoc]⟩
  · exact ⟨promptIntro ++ d.address ++ promptSize,
      promptBudget ++ toString d.budget ++ promptEff ++ d.currentEfficiency ++ promptOutro,
      by simp [buildPrompt, String.append_assoc]⟩
  · exact ⟨promptIntro ++ d.address ++ promptSize ++ toString d.sqm ++ promptBudget,
      promptEff ++ d.currentEfficiency ++ promptOutro,
      by simp [buildPrompt, String.append_assoc]⟩
  · exact ⟨promptIntro ++ d.address ++ promptSize ++ toString d.sqm ++ promptBudget
        ++ toString d.budget ++ promptEff,
      promptOutro,
      by simp [buildPrompt, String.append_assoc]⟩

theorem c2_request_builder_witness :
    imageParts (buildAnalyzeRequest sampleDetails [sampleImage])
      = [InlinePart.mk "image/jpeg" "QQ=="] ∧
    instructionParts (buildAnalyzeRequest sampleDetails [sampleImage])
      = [buildPrompt sampleDetails] ∧
    ContainsStr (buildPrompt sampleDetails) "Torstraße 45, Berlin" ∧
    ContainsStr (buildPrompt sampleDetails) (toString (500 : Int)) ∧
    ContainsStr (buildPrompt sampleDetails) (toString (250000 : Int)) ∧
    ContainsStr (buildPrompt sampleDetails) "E" := by
  have h := c2_request_builder sampleDetails [sampleImage] (by decide) (by simp)
  exact ⟨by rw [h.1]; rfl, h.2.2.1, h.2.2.2.1, h.2.2.2.2.1, h.2.2.2.2.2.1, h.2.2.2.2.2.2⟩

/-- C3: for every response text that parses to a schema-conformant payload,
`analyzeRenovation` returns exactly the parsed payload, and its typed reading
is a `RenovationPlan` whose numeric fields are the payload's rationals
unchanged and whose phase count equals the payload's phases array length. -/
theorem c3_roundtrip :
    ∀ (details : PropertyDetails) (images : List ImageAsset)
      (service : GenRequest → ServiceOutcome) (text : String) (j : Json),
      service (buildAnalyzeRequest details images) = .reply (some text) →
      parseJson text = .ok j →
      conformsToSchema j = true →
      analyzeRenovation details images service = .ok j ∧
      ∃ p, decodePlan j = some p ∧
        getField j "totalCost" = some (.num p.totalCost) ∧
        getField j "totalDuration" = some (.num p.totalDuration) ∧
        ∃ xs, getField j "phases" = some (.arr xs) ∧ p.phases.length = xs.length := by
  intro d imgs svc text j hsvc hparse hconf
  constructor
  · unfold analyzeRenovation
    rw [hsvc]
    simp [parseJson_ok_ne_empty hparse, hparse]
  · exact conformsToSchema_decode hconf

set_option maxRecDepth 10000 in
theorem c3_roundtrip_witness :
    analyzeRenovation sampleDetails [sampleImage]
        (fun _ => .reply (some mockPlanText)) = .ok mockPlanJson ∧
    decodePlan mockPlanJson = some mockPlan ∧
    mockPlan.totalCost = 180000 ∧
    mockPlan.totalDuration = 26 ∧
    mockPlan.phases.length = 2 := by
  have h := c3_roundtrip sampleDetails [sampleImage]
    (fun _ => ServiceOutcome.reply (some mockPlanText)) mockPlanText mockPlanJson
    rfl (by rfl) (by rfl)
  exact ⟨h.1, by rfl, rfl, rfl, rfl⟩

/-- C4: a service reply whose response text is absent or empty makes
`analyzeRenovation` fail with the empty-response error and return no plan. -/
theorem c4_empty_response :
    ∀ (details : PropertyDetails) (images : List ImageAsset)
      (service : GenRequest → ServiceOutcome),
      (service (buildAnalyzeRequest details images) = .reply none ∨
       service (buildAnalyzeRequest details images) = .reply (some "")) →
      analyzeRenovation details images service = .error .emptyResponse := by
  intro d imgs svc h
  unfold analyzeRenovation
  rcases h with h | h <;> simp [h]

theorem c4_empty_response_witness :
    analyzeRenovation sampleDetails [sampleImage] (fun _ => .reply none)
        = .error .emptyResponse ∧
    analyzeRenovation sampleDetails [sampleImage] (fun _ => .reply (some ""))
        = .error .emptyResponse :=
  ⟨c4_empty_response _ _ _ (Or.inl rfl), c4_empty_response _ _ _ (Or.inr rfl)⟩

/-- C5: a transport/service failure propagates unchanged as a service error,
which is distinguishable (distinct constructor) from both the
malformed-payload and empty-response failures; the single service call is
neither retried nor swallowed. -/
theorem c5_service_error_distinguishable :
    ∀ (details : PropertyDetails) (images : List ImageAsset)
      (service : GenRequest → ServiceOutcome) (e : ServiceErr),
      service (buildAnalyzeRequest details images) = .failure e →
      analyzeRenovation details images service = .error (.service e) ∧
      (∀ m, GenError.service e ≠ GenError.malformedPayload m) ∧
      GenError.service e ≠ GenError.emptyResponse := by
  intro d imgs svc e h
  refine ⟨?_, fun m hm => GenError.noConfusion hm, fun hm => GenError.noConfusion hm⟩
  unfold analyzeRenovation
  rw [h]

theorem c5_service_error_witness :
    analyzeRenovation sampleDetails [sampleImage]
        (fun _ => .failure ⟨"quota exceeded"⟩)
      = .error (.service ⟨"quota exceeded"⟩) ∧
    GenError.service ⟨"quota exceeded"⟩ ≠ GenError.malformedPayload "x" := by
  have h := c5_service_error_distinguishable sampleDetails [sampleImage]
    (fun _ => ServiceOutcome.failure ⟨"quota exceeded"⟩) ⟨"quota exceeded"⟩ rfl
  exact ⟨h.1, h.2.1 "x"⟩

/-- C6, counterexample: a response whose only inline image data sits in the
second candidate makes both image functions fail with the no-image error,
although the response does contain an inline image part — the code scans only
the first candidate. -/
theorem c6_counterexample :
    responseHasInline respSecondCandidate = true ∧
    generateRenovationImage "p" "s" .k1 (fun _ => .ok respSecondCandidate)
        = .error .noImageProduced ∧
    generateBlueprintImage "n" "d" "s" (fun _ => .ok respSecondCandidate)
        = .error .noImageProduced :=
  ⟨rfl, rfl, rfl⟩

/-- C6, amended: both image functions return the first inline payload of the
FIRST candidate's parts as a data URL, and fail with the no-image error
(never an empty or placeholder string) when the first candidate carries no
inline data — even if a later candidate does. -/
theorem c6_first_candidate_extraction :
    (∀ (prompt style : String) (size : ImageSize)
       (service : ImageRequest → Except ServiceErr GenResponse) (resp : GenResponse),
       service (renovationImageRequest prompt style size) = .ok resp →
       (firstInline (firstCandidateParts resp) = none →
         generateRenovationImage prompt style size service = .error .noImageProduced) ∧
       ∀ d, firstInline (firstCandidateParts resp) = some d →
         generateRenovationImage prompt style size service
           = .ok ("data:image/png;base64," ++ d.data)) ∧
    (∀ (phaseName description style : String)
       (service : ImageRequest → Except ServiceErr GenResponse) (resp : GenResponse),
       service (blueprintImageRequest phaseName description style) = .ok resp →
       (firstInline (firstCandidateParts resp) = none →
         generateBlueprintImage phaseName description style service = .error .noImageProduced) ∧
       ∀ d, firstInline (firstCandidateParts resp) = some d →
         generateBlueprintImage phaseName description style service
           = .ok ("data:image/png;base64," ++ d.data)) := by
  constructor
  · intro prompt style size svc resp hsvc
    constructor
    · intro hnone
      simp [generateRenovationImage, extractImage, hsvc, hnone]
    · intro d hd
      simp [generateRenovationImage, extractImage, hsvc, hd]
  · intro phaseName description style svc resp hsvc
    constructor
    · intro hnone
      simp [generateBlueprintImage, extractImage, hsvc, hnone]
    · intro d hd
      simp [generateBlueprintImage, extractImage, hsvc, hd]

theorem c6_first_candidate_witness :
    generateRenovationImage "p" "s" .k1 (fun _ => .ok respNoImage)
        = .error .noImageProduced ∧
    generateBlueprintImage "n" "d" "s" (fun _ => .ok respNoImage)
        = .error .noImageProduced := by
  have h1 := (c6_first_candidate_extraction.1 "p" "s" .k1
    (fun _ => .ok respNoImage) respNoImage rfl).1 rfl
  have h2 := (c6_first_candidate_extraction.2 "n" "d" "s"
    (fun _ => .ok respNoImage) respNoImage rfl).1 rfl
  exact ⟨h1, h2⟩

/-- C7: a failed generation call for phase `i` leaves the stored assets
unchanged and the plan unmutated; any call for phase `i` (success or failure,
image or blueprint) leaves the assets and in-progress flags of every other
phase `j ≠ i` unchanged. -/
theorem c7_dashboard_frame :
    ∀ (hook : Option AiStudioHook) (i : Nat) (outcome : Except AssetError String)
      (s : DashState),
      (∀ e, outcome = .error e →
        (handleGenerateImage hook i outcome s).1.phaseImages = s.phaseImages ∧
        (handleGenerateBlueprint hook i outcome s).1.blueprints = s.blueprints) ∧
      (handleGenerateImage hook i outcome s).1.plan = s.plan ∧
      (handleGenerateBlueprint hook i outcome s).1.plan = s.plan ∧
      (∀ j, j ≠ i →
        (handleGenerateImage hook i outcome s).1.phaseImages j = s.phaseImages j ∧
        (handleGenerateImage hook i outcome s).1.generatingPhase j = s.generatingPhase j ∧
        (handleGenerateImage hook i outcome s).1.blueprints j = s.blueprints j ∧
        (handleGenerateImage hook i outcome s).1.generatingBlueprint j
          = s.generatingBlueprint j ∧
        (handleGenerateBlueprint hook i outcome s).1.phaseImages j = s.phaseImages j ∧
        (handleGenerateBlueprint hook i outcome s).1.generatingPhase j
          = s.generatingPhase j ∧
        (handleGenerateBlueprint hook i outcome s).1.blueprints j = s.blueprints j ∧
        (handleGenerateBlueprint hook i outcome s).1.generatingBlueprint j
          = s.generatingBlueprint j) := by
  intro hook i outcome s
  refine ⟨?_, ?_, ?_, ?_⟩
  · intro e he
    subst he
    by_cases hk : checkApiKey hook <;>
      simp [handleGenerateImage, handleGenerateBlueprint, hk]
  · by_cases hk : checkApiKey hook <;> cases outcome <;>
      simp [handleGenerateImage, hk]
  · by_cases hk : checkApiKey hook <;> cases outcome <;>
      simp [handleGenerateBlueprint, hk]
  · intro j hj
    by_cases hk : checkApiKey hook <;> cases outcome <;>
      simp [handleGenerateImage, handleGenerateBlueprint, hk, setAsset, setFlag, hj]

theorem c7_dashboard_frame_witness :
    (handleGenerateImage none 0 (Except.error AssetError.noImageProduced)
        sampleDash).1.phaseImages = sampleDash.phaseImages ∧
    (handleGenerateImage none 0 (Except.error AssetError.noImageProduced)
        sampleDash).1.plan = sampleDash.plan ∧
    (handleGenerateImage none 0 (Except.error AssetError.noImageProduced)
        sampleDash).1.blueprints 1 = sampleDash.blueprints 1 ∧
    (handleGenerateImage none 0 (Except.ok "data:image/png;base64,AAAA")
        sampleDash).1.phaseImages 1 = sampleDash.phaseImages 1 := by
  have he := c7_dashboard_frame none 0 (Except.error AssetError.noImageProduced) sampleDash
  have ho := c7_dashboard_frame none 0 (Except.ok "data:image/png;base64,AAAA") sampleDash
  exact ⟨(he.1 AssetError.noImageProduced rfl).1, he.2.1,
    ((he.2.2.2 1 (by decide)).2.2.1), ((ho.2.2.2 1 (by decide)).1)⟩

/-- C8: from every reachable session state in which the reset action is
available (the dashboard stage, step 3), `handleReset` restores exactly the
initial state: images empty, plan absent, details at their defaults, step 1
(the error banner and loading flag are already clear in every such state). -/
theorem c8_reset_restores_initial :
    ∀ s : AppState, Reachable s → s.step = 3 → handleReset s = initialAppState := by
  have inv : ∀ s : AppState, Reachable s →
      (s.isLoading = true → s.error = none ∧ s.step = 1) ∧
      (s.step = 3 → s.error = none ∧ s.isLoading = false) := by
    intro s h
    induction h with
    | init => simp [initialAppState]
    | updAddress a _ hstep ih =>
      exact ⟨fun hl => ⟨(ih.1 hl).1, hstep⟩, fun h3 => absurd (hstep ▸ h3) (by simp)⟩
    | updSqm n _ hstep ih =>
      exact ⟨fun hl => ⟨(ih.1 hl).1, hstep⟩, fun h3 => absurd (hstep ▸ h3) (by simp)⟩
    | updBudget n _ hstep ih =>
      exact ⟨fun hl => ⟨(ih.1 hl).1, hstep⟩, fun h3 => absurd (hstep ▸ h3) (by simp)⟩
    | updEfficiency c _ hstep ih =>
      exact ⟨fun hl => ⟨(ih.1 hl).1, hstep⟩, fun h3 => absurd (hstep ▸ h3) (by simp)⟩
    | updImages imgs _ hstep ih =>
      exact ⟨fun hl => ⟨(ih.1 hl).1, hstep⟩, fun h3 => absurd (hstep ▸ h3) (by simp)⟩
    | analyzeStart _ hstep _ _ _ =>
      exact ⟨fun _ => ⟨rfl, hstep⟩, fun h3 => absurd (hstep ▸ h3) (by simp)⟩
    | analyzeSuccess p _ hl ih =>
      exact ⟨fun hfalse => by simp [analysisSuccess] at hfalse,
        fun _ => ⟨(ih.1 hl).1, rfl⟩⟩
    | analyzeFailure _ hl ih =>
      exact ⟨fun hfalse => by simp [analysisFailure] at hfalse,
        fun h3 => absurd ((ih.1 hl).2 ▸ h3) (by simp)⟩
    | reset _ h3 ih =>
      exact ⟨fun hfalse => absurd ((ih.2 h3).2 ▸ hfalse) (by simp),
        fun habs => absurd habs (by simp [handleReset])⟩
  intro s h h3
  obtain ⟨he, hl⟩ := (inv s h).2 h3
  cases s with
  | mk step isLoading error images details plan =>
    simp only [handleReset, initialAppState] at *
    rw [he, hl]

theorem c8_reset_witness :
    Reachable reachedStep3 ∧ reachedStep3.step = 3 ∧
    handleReset reachedStep3 = initialAppState := by
  have hr : Reachable reachedStep3 :=
    Reachable.analyzeSuccess samplePlan
      (Reachable.analyzeStart
        (Reachable.updImages [sampleImage]
          (Reachable.updAddress "Torstraße 45, Berlin" Reachable.init rfl) rfl)
        rfl rfl (by decide) (by simp [updateImages]))
      rfl
  exact ⟨hr, rfl, c8_reset_restores_initial _ hr rfl⟩

/-- C9: with the host credential hook absent, `checkApiKey` returns true and
both dashboard handlers issue their generation request. -/
theorem c9_absent_hook_proceeds :
    checkApiKey none = true ∧
    ∀ (i : Nat) (outcome : Except AssetError String) (s : DashState),
      (handleGenerateImage none i outcome s).2 = true ∧
      (handleGenerateBlueprint none i outcome s).2 = true := by
  refine ⟨rfl, fun i outcome s => ⟨?_, ?_⟩⟩ <;>
    simp [handleGenerateImage, handleGenerateBlueprint, checkApiKey]

/-- C10: every successful image call returns the fixed PNG data-URL prefix
followed by the first inline payload of the first candidate, whatever mime
type the service declared for that payload. -/
theorem c10_data_url_ignores_mime :
    (∀ (prompt style : String) (size : ImageSize)
       (service : ImageRequest → Except ServiceErr GenResponse)
       (resp : GenResponse) (d : RespInline),
       service (renovationImageRequest prompt style size) = .ok resp →
       firstInline (firstCandidateParts resp) = some d →
       generateRenovationImage prompt style size service
         = .ok ("data:image/png;base64," ++ d.data)) ∧
    (∀ (phaseName description style : String)
       (service : ImageRequest → Except ServiceErr GenResponse)
       (resp : GenResponse) (d : RespInline),
       service (blueprintImageRequest phaseName description style) = .ok resp →
       firstInline (firstCandidateParts resp) = some d →
       generateBlueprintImage phaseName description style service
         = .ok ("data:image/png;base64," ++ d.data)) := by
  constructor
  · intro prompt style size svc resp d hsvc hd
    simp [generateRenovationImage, extractImage, hsvc, hd]
  · intro phaseName description style svc resp d hsvc hd
    simp [generateBlueprintImage, extractImage, hsvc, hd]

theorem c10_data_url_witness :
    generateRenovationImage "p" "s" .k2 (fun _ => .ok respJpeg)
        = .ok ("data:image/png;base64," ++ "AAAA") ∧
    generateBlueprintImage "n" "d" "s" (fun _ => .ok respJpeg)
        = .ok ("data:image/png;base64," ++ "AAAA") := by
  have h1 := c10_data_url_ignores_mime.1 "p" "s" .k2
    (fun _ => .ok respJpeg) respJpeg ⟨"image/jpeg", "AAAA"⟩ rfl rfl
  have h2 := c10_data_url_ignores_mime.2 "n" "d" "s"
    (fun _ => .ok respJpeg) respJpeg ⟨"image/jpeg", "AAAA"⟩ rfl rfl
  exact ⟨h1, h2⟩

end Reno
